/-
Verification of the screenly-ose server (src/server.py) against its
natural-language specification.  The Python code is shallowly embedded:
dictionaries become structures, `datetime` values become integers
(ordered timestamps), Python truthiness of the date fields is made
explicit, exceptions become `Except`, and external collaborators of the
server (the md5 library, the HTTP client, PIL, `datetime.strptime`, the
asset folder path) are threaded as an explicit environment record.
-/
import Mathlib

namespace Screenly

/-!
## Date fields

A `start_date` / `end_date` column can hold a `datetime` (modelled as an
integer timestamp), the empty-string sentinel `""` written by the legacy
insert path, or be null/absent.  Python truthiness: a `datetime` is
always truthy; `""` and `None` are falsy.
-/

inductive DateField where
  | absent : DateField
  | emptyStr : DateField
  | time : Int → DateField
  deriving Repr, DecidableEq

/-- Python truthiness of a date column value: `None` and `""` are falsy,
a `datetime` is truthy. -/
def DateField.truthy : DateField → Bool
  | .absent => false
  | .emptyStr => false
  | .time _ => true

/-!
## Asset records

An asset dictionary as produced by `fetch_assets` (src/server.py lines
72-92): the seven selected columns.
-/

structure Asset where
  asset_id : String
  name : String
  uri : String
  start_date : DateField
  end_date : DateField
  duration : String
  mimetype : String
  deriving Repr, DecidableEq

/-!
## Scheduling predicate

`is_active` (src/server.py lines 38-57):

    if not (asset['start_date'] and asset['end_date']):
        return False
    at_time = at_time or get_current_time()
    return (asset['start_date'] < at_time and asset['end_date'] > at_time)

The call-site defaulting `at_time or get_current_time()` is resolved by
always passing the query time explicitly (a `datetime` argument is never
falsy in Python, so a supplied time is never replaced by the clock).
When the guard passes, both fields are truthy, hence `datetime` values.
-/

def is_active (asset : Asset) (at_time : Int) : Bool :=
  if !(asset.start_date.truthy && asset.end_date.truthy) then
    false
  else
    match asset.start_date, asset.end_date with
    | .time s, .time e => decide (s < at_time) && decide (e > at_time)
    | _, _ => false

/-!
## Playlist builder

`get_playlist` (src/server.py lines 60-69) iterates over the store
result, keeps the active assets, and replaces their date fields by
display strings via `datestring.date_to_string` (a repository module
outside src/, threaded here as the parameter `dts`).  The store list
and the current time are likewise explicit parameters.
-/

structure PlaylistEntry where
  asset_id : String
  name : String
  uri : String
  start_date : String
  end_date : String
  duration : String
  mimetype : String
  deriving Repr, DecidableEq

/-- The in-place mutation of the asset dictionary performed inside the
`get_playlist` loop: both date fields are replaced by their display
strings, every other key is kept. -/
def stringify_dates (dts : DateField → String) (a : Asset) : PlaylistEntry :=
  { asset_id := a.asset_id
    name := a.name
    uri := a.uri
    start_date := dts a.start_date
    end_date := dts a.end_date
    duration := a.duration
    mimetype := a.mimetype }

def get_playlist (dts : DateField → String) (now : Int) :
    List Asset → List PlaylistEntry
  | [] => []
  | a :: rest =>
      if is_active a now then
        stringify_dates dts a :: get_playlist dts now rest
      else
        get_playlist dts now rest

/-!
## Python string helpers

`str.strip()` trims Python whitespace (' ', '\t', '\n', '\r', '\x0b',
'\x0c') from both ends; `needle in hay` is the substring test.
-/

def py_space (c : Char) : Bool :=
  c = ' ' || c = '\t' || c = '\n' || c = '\r' || c = '\x0b' || c = '\x0c'

def pystrip (s : String) : String :=
  String.mk (((s.toList.dropWhile py_space).reverse.dropWhile py_space).reverse)

/-- Test whether `hay` begins with `needle`. -/
def starts_with : List Char → List Char → Bool
  | [], _ => true
  | _ :: _, [] => false
  | a :: as, b :: bs => (a = b) && starts_with as bs

/-- Test whether `needle` occurs contiguously in `hay`. -/
def contains_sub (needle : List Char) : List Char → Bool
  | [] => needle.isEmpty
  | c :: rest => starts_with needle (c :: rest) || contains_sub needle rest

/-- Python's `needle in hay` substring operator (the empty needle is in
every string). -/
def py_in (needle hay : String) : Bool :=
  contains_sub needle.toList hay.toList

/-!
## urlparse (Python 2.7 stdlib collaborator)

`validate_uri` delegates to `urlparse.urlparse`.  Only the scheme and
netloc components are consumed, so the model reproduces the scheme and
netloc extraction of `urlparse.urlsplit` exactly (including the `http`
fast path, the port-number special case, and the `ValueError` raised on
mismatched IPv6 brackets); the query/fragment/params splitting happens
after netloc extraction and cannot change these two components.
-/

def scheme_char (c : Char) : Bool :=
  c.isAlpha || c.isDigit || c = '+' || c = '-' || c = '.'

/-- Model of `_splitnetloc(url, 2)`: netloc runs from index 2 up to the first of
`/`, `?`, `#`; the remainder is returned as the rest of the url. -/
def splitnetloc (url : List Char) : List Char × List Char :=
  let after := url.drop 2
  (after.takeWhile (fun c => !(c = '/' || c = '?' || c = '#')),
   after.dropWhile (fun c => !(c = '/' || c = '?' || c = '#')))

/-- The mismatched-bracket test guarding `raise ValueError("Invalid IPv6
URL")`. -/
def bad_ipv6 (netloc : List Char) : Bool :=
  (netloc.contains '[' && !netloc.contains ']') ||
  (netloc.contains ']' && !netloc.contains '[')

/-- Common tail of `urlsplit`: given the scheme and the url remainder,
extract the netloc when the remainder starts with `//`. -/
def urlsplit_netloc (scheme url : List Char) :
    Except String (List Char × List Char × List Char) :=
  if url.take 2 = ['/', '/'] then
    let nl := splitnetloc url
    if bad_ipv6 nl.1 then .error "Invalid IPv6 URL"
    else .ok (scheme, nl.1, nl.2)
  else .ok (scheme, [], url)

/-- Scheme recognition of `urlsplit`: a colon at a positive index whose
preceding chars are all scheme chars splits off a (lowercased) scheme,
unless the remainder is a non-empty run of digits (a bare port); the
literal lowercase `http` fast path skips the port check. -/
def urlsplit (url : List Char) : Except String (List Char × List Char × List Char) :=
  match url.findIdx? (fun c => c = ':') with
  | some i =>
    if 0 < i then
      if url.take i = "http".toList then
        urlsplit_netloc (url.take i) (url.drop (i + 1))
      else if (url.take i).all scheme_char then
        let rest := url.drop (i + 1)
        if rest.isEmpty || !(rest.all Char.isDigit) then
          urlsplit_netloc ((url.take i).map Char.toLower) rest
        else
          urlsplit_netloc [] url
      else
        urlsplit_netloc [] url
    else
      urlsplit_netloc [] url
  | none => urlsplit_netloc [] url

structure UrlParts where
  scheme : String
  netloc : String
  deriving Repr, DecidableEq

def urlparse (s : String) : Except String UrlParts :=
  match urlsplit s.toList with
  | .error e => .error e
  | .ok (sch, nl, _) => .ok ⟨String.mk sch, String.mk nl⟩

/-!
## validate_uri (src/server.py lines 129-147)

    uri_check = urlparse(uri)
    return bool(uri_check.scheme in ('http', 'https') and uri_check.netloc)

A `ValueError` raised inside `urlparse` propagates, hence the `Except`.
-/

def validate_uri (uri : String) : Except String Bool :=
  match urlparse uri with
  | .error e => .error e
  | .ok p => .ok ((p.scheme == "http" || p.scheme == "https") && p.netloc != "")

/-!
## External collaborators of the ingestion pipeline

`prepare_asset` / `process_asset` call out to the md5 library, the HTTP
client (`requests.get` / `requests.head` — only `status_code` and `url`
of the response are consumed on the paths that matter), PIL's
`Image.open(...).size`, `datetime.strptime`, and the configured
`asset_folder`; these are threaded as one environment record.
-/

structure Env where
  /-- Model of `md5(s).hexdigest()`. -/
  md5hex : String → String
  /-- Value of `settings.asset_folder`. -/
  asset_folder : String
  /-- status code of the GET/HEAD performed on a URI -/
  fetch_status : String → Nat
  /-- Result of `Image.open(StringIO(file.content)).size` on the body fetched from
  a URI; `none` means PIL raises (no image could be identified) -/
  image_size : String → Option (Nat × Nat)
  /-- Model of `datetime.strptime(s, fmt)` for the fixed formats used by the
  server; `none` means `ValueError` -/
  strptime : String → Option Int

/-- An uploaded file as a readable stream with a position:
`read()` returns everything from the position on and leaves the
position at the end, so a second `read()` returns `""`. -/
structure FileStream where
  content : String
  pos : Nat
  deriving Repr, DecidableEq

def FileStream.read (fs : FileStream) : String × FileStream :=
  (String.mk (fs.content.toList.drop fs.pos),
   { fs with pos := fs.content.toList.length })

/-- A fresh upload: position at the start. -/
def upload (content : String) : FileStream := ⟨content, 0⟩

/-!
## Ingestion pipeline: prepare_asset (src/server.py lines 165-246)

The request is modelled after form decoding: the six fields read via
`get(key)` (absent keys read as `""`), plus `request.files.file_upload`
(`none` when no file part is present, in which case the `!= ""` test is
false and the `.file` access raises, making `file_upload` falsy).
-/

structure Submission where
  name : String
  uri : String
  mimetype : String
  duration : String
  start_date : String
  end_date : String
  file_upload : Option FileStream
  deriving Repr, DecidableEq

/-- The asset dictionary built by `prepare_asset`; `asset_id`, `uri` and
`duration` are keys that may be left unset, `start_date`/`end_date` are
always set (either a parsed datetime or the `""` sentinel). -/
structure PreparedAsset where
  name : String
  mimetype : String
  asset_id : Option String
  uri : Option String
  duration : Option String
  start_date : DateField
  end_date : DateField
  deriving Repr, DecidableEq

/-- Result of `prepare_asset` together with its filesystem effect: the
`(path, bytes)` written by `open(asset['uri'], 'w').write(...)`, if any. -/
structure PrepareResult where
  asset : PreparedAsset
  file_write : Option (String × String)
  deriving Repr, DecidableEq

/-- Model of `datetime.strptime(get(k).split(".")[0], "%Y-%m-%dT%H:%M:%S")` on a
non-empty field, the `""` sentinel otherwise; a parse failure raises. -/
def parse_date (env : Env) (s : String) : Except String DateField :=
  if s ≠ "" then
    match env.strptime ((s.splitOn ".").headD s) with
    | some t => .ok (.time t)
    | none => .error "ValueError: time data does not match format"
  else .ok .emptyStr

/-- Lines 198-216, the URI branch: validate, fetch (GET for images,
HEAD otherwise — only the status code is consumed, the commented-out
resolution code being dead), and on a 200 assign
`asset_id = md5(name + uri)` and `uri` as submitted.  Returns the
`(asset_id, uri)` keys assigned so far. -/
def uri_branch (env : Env) (name uri' : String) :
    Except String (Option String × Option String) :=
  if uri' ≠ "" then
    match validate_uri uri' with
    | .error e => .error e
    | .ok false => .error "Invalid URL. Failed to add asset."
    | .ok true =>
        if env.fetch_status uri' = 200 then
          .ok (some (env.md5hex (name ++ uri')), some uri')
        else
          .error "Could not retrieve file. Check the asset URL."
  else .ok (none, none)

/-- Lines 218-223, the file branch: `asset_id = md5(file_upload.read())`,
the storage path `asset_folder/asset_id` as `uri`, and the write of a
SECOND `file_upload.read()` of the same stream to that path.  When a
file is present its keys overwrite the URI branch's; otherwise the
previous keys stand and nothing is written. -/
def file_branch (env : Env) (fu : Option FileStream)
    (prev : Option String × Option String) :
    Option String × Option String × Option (String × String) :=
  match fu with
  | some fs =>
      let r1 := fs.read
      let fid := env.md5hex r1.1
      let fpath := env.asset_folder ++ "/" ++ fid
      let r2 := r1.2.read
      (some fid, some fpath, some (fpath, r2.1))
  | none => (prev.1, prev.2, none)

/-- Lines 228-232: `duration = "N/A"` for video mimetypes, THEN a
non-empty supplied duration is assigned verbatim (so the sentinel is
overwritten); an unset key results otherwise. -/
def duration_field (mimetype durRaw : String) : Option String :=
  let dur0 : Option String := if py_in "video" mimetype = true then some "N/A" else none
  if durRaw ≠ "" then some durRaw else dur0

def prepare_asset (env : Env) (sub : Submission) : Except String PrepareResult :=
  let name := pystrip sub.name
  let uri' := pystrip sub.uri
  let mimetype := pystrip sub.mimetype
  if ¬(name ≠ "" ∧ (uri' ≠ "" ∨ sub.file_upload.isSome) ∧ mimetype ≠ "") then
    .error "Not enough information provided. Please specify 'name', 'uri', and 'mimetype'."
  else if sub.file_upload.isSome ∧ py_in "web" mimetype = true then
    .error "Invalid combination. Can't upload a web resource."
  else if uri' ≠ "" ∧ sub.file_upload.isSome then
    .error "Invalid combination. Can't select both URI and a file."
  else
    match uri_branch env name uri' with
    | .error e => .error e
    | .ok prev =>
      let sf := file_branch env sub.file_upload prev
      match parse_date env (pystrip sub.start_date) with
      | .error e => .error e
      | .ok sd =>
        match parse_date env (pystrip sub.end_date) with
        | .error e => .error e
        | .ok ed =>
          .ok { asset := { name := name, mimetype := mimetype,
                           asset_id := sf.1, uri := sf.2.1,
                           duration := duration_field mimetype (pystrip sub.duration),
                           start_date := sd, end_date := ed },
                file_write := sf.2.2 }

/-!
## Asset table rows and the edit endpoint (src/server.py lines 277-291)

`edit_asset` prepares the submission, deletes the `asset_id` key from
the prepared dictionary (a `KeyError` if it is absent), and runs
`UPDATE assets SET k1=?, k2=?, ... WHERE asset_id=?` over the remaining
keys.  The UPDATE is modelled as a fold of column assignments over the
row matched by the WHERE clause.
-/

inductive Column where
  | asset_id | name | uri | md5 | start_date | end_date | duration | mimetype
  deriving Repr, DecidableEq

inductive Value where
  | str : String → Value
  | date : DateField → Value
  deriving Repr, DecidableEq

/-- A row of the `assets` table (full schema, line 125). -/
structure DbRow where
  asset_id : String
  name : String
  uri : String
  md5 : String
  start_date : DateField
  end_date : DateField
  duration : String
  mimetype : String
  deriving Repr, DecidableEq

/-- The key/value pairs of the prepared dictionary, in assignment
order; optional keys contribute nothing when unset. -/
def PreparedAsset.toPairs (p : PreparedAsset) : List (Column × Value) :=
  [(Column.name, Value.str p.name), (Column.mimetype, Value.str p.mimetype)]
    ++ (match p.asset_id with
        | some v => [(Column.asset_id, Value.str v)]
        | none => [])
    ++ (match p.uri with
        | some v => [(Column.uri, Value.str v)]
        | none => [])
    ++ (match p.duration with
        | some v => [(Column.duration, Value.str v)]
        | none => [])
    ++ [(Column.start_date, Value.date p.start_date),
        (Column.end_date, Value.date p.end_date)]

/-- A single `col=?` assignment of the UPDATE statement. -/
def setCol (row : DbRow) (c : Column) (v : Value) : DbRow :=
  match c, v with
  | .asset_id, .str s => { row with asset_id := s }
  | .name, .str s => { row with name := s }
  | .uri, .str s => { row with uri := s }
  | .md5, .str s => { row with md5 := s }
  | .duration, .str s => { row with duration := s }
  | .mimetype, .str s => { row with mimetype := s }
  | .start_date, .date d => { row with start_date := d }
  | .end_date, .date d => { row with end_date := d }
  | _, _ => row

/-- Statement `UPDATE assets SET ... WHERE asset_id=?` applied to the matched row. -/
def run_update (row : DbRow) (pairs : List (Column × Value)) : DbRow :=
  pairs.foldl (fun r kv => setCol r kv.1 kv.2) row

/-- The POST /api/assets/:asset_id handler body: prepare, delete the
`asset_id` key, update the matched row with the remaining keys. -/
def edit_asset (env : Env) (sub : Submission) (row : DbRow) : Except String DbRow :=
  match prepare_asset env sub with
  | .error e => .error e
  | .ok r =>
      let pairs := r.asset.toPairs
      if (pairs.filter (fun kv => kv.1 = Column.asset_id)).isEmpty then
        .error "KeyError: 'asset_id'"
      else
        .ok (run_update row (pairs.filter (fun kv => ¬(kv.1 = Column.asset_id))))

/-!
## Legacy creation endpoint: process_asset (src/server.py lines 310-397)

The handler validates the same name/source/mimetype triple (accessing
`request.files.file_upload.file` inside the condition raises when no
file part is present), repeats the combination checks, runs its own
URI/file branches, then hardcodes

    start_date = ""
    end_date = ""
    duration = ""

and inserts `(asset_id, name, uri, start_date, end_date, duration,
mimetype)`.  Success is modelled as the inserted row (an `Asset`, in
the column order of the INSERT) plus the filesystem write, failure as
the message/exception text.
-/

/-- Lines 343-370: validate the URI, fetch it (GET for images — whose
body must then open as an image, PIL raising otherwise — HEAD for the
rest), and on a 200 derive `asset_id = md5(name + uri)`. -/
def process_uri_branch (env : Env) (name uri' mimetype : String) :
    Except String (Option String) :=
  if uri' ≠ "" then
    match validate_uri uri' with
    | .error e => .error e
    | .ok false => .error "Invalid URL. Failed to add asset."
    | .ok true =>
        if env.fetch_status uri' = 200 then
          if py_in "image" mimetype = true then
            match env.image_size uri' with
            | some _ => .ok (some (env.md5hex (name ++ uri')))
            | none => .error "IOError: cannot identify image file"
          else .ok (some (env.md5hex (name ++ uri')))
        else .error "Unable to fetch file."
  else .ok none

def process_asset (env : Env) (sub : Submission) :
    Except String (Asset × Option (String × String)) :=
  let name := pystrip sub.name
  let uri' := pystrip sub.uri
  let mimetype := pystrip sub.mimetype
  if name = "" then .error "Invalid input."
  else if uri' = "" ∧ sub.file_upload = none then
    .error "AttributeError: 'str' object has no attribute 'file'"
  else if mimetype = "" then .error "Invalid input."
  else if sub.file_upload.isSome ∧ py_in "web" mimetype = true then
    .error "Invalid combination. Can't upload web resource."
  else if uri' ≠ "" ∧ sub.file_upload.isSome then
    .error "Invalid combination. Can't select both URI and a file."
  else
    match process_uri_branch env name uri' mimetype with
    | .error e => .error e
    | .ok idOpt =>
      match sub.file_upload with
      | some fs =>
          let r1 := fs.read
          let fid := env.md5hex r1.1
          let fpath := env.asset_folder ++ "/" ++ fid
          let r2 := r1.2.read
          .ok (⟨fid, name, fpath, .emptyStr, .emptyStr, "", mimetype⟩,
               some (fpath, r2.1))
      | none =>
          match idOpt with
          | some aid => .ok (⟨aid, name, uri', .emptyStr, .emptyStr, "", mimetype⟩, none)
          | none => .error "NameError: asset_id"

/-- A concrete environment for evaluating the pipeline on test inputs:
a tagging "hash", the default asset folder, a server that answers 200
everywhere, a PIL that sees a 1×1 image, and a clock-free strptime. -/
def env0 : Env :=
  { md5hex := fun s => "md5:" ++ s
    asset_folder := "/screenly_assets"
    fetch_status := fun _ => 200
    image_size := fun _ => some (1, 1)
    strptime := fun _ => some 0 }

end Screenly

namespace Screenly

/-!
## Theorems: scheduling predicate
-/

/-- C1: for an asset whose `start_date` and `end_date` are both present
(`datetime` values), `is_active` at a query time is true iff the time is
strictly between the two boundaries; equality at either boundary yields
false. -/
theorem is_active_strict_window (a : Asset) (s e t : Int)
    (hs : a.start_date = .time s) (he : a.end_date = .time e) :
    (is_active a t = true ↔ (s < t ∧ t < e))
      ∧ is_active a s = false ∧ is_active a e = false := by
  refine ⟨?_, ?_, ?_⟩ <;>
    simp [is_active, hs, he, DateField.truthy]

/-- Witness for C1 at the doctest instant: start 0, end 100, query 50 is
active, and both boundaries are inactive. -/
theorem is_active_strict_window_witness :
    (is_active ⟨"id", "n", "u", .time 0, .time 100, "5", "web"⟩ 50 = true
        ↔ ((0 : Int) < 50 ∧ (50 : Int) < 100))
      ∧ is_active ⟨"id", "n", "u", .time 0, .time 100, "5", "web"⟩ 0 = false
      ∧ is_active ⟨"id", "n", "u", .time 0, .time 100, "5", "web"⟩ 100 = false :=
  is_active_strict_window ⟨"id", "n", "u", .time 0, .time 100, "5", "web"⟩
    0 100 50 rfl rfl

/-- C4: an asset whose `start_date` or `end_date` is absent, null or the
empty-string sentinel (i.e. Python-falsy) is inactive at every query
time; the guard returns `false` before any comparison, so no error is
raised. -/
theorem is_active_missing_boundary (a : Asset) (t : Int)
    (h : a.start_date.truthy = false ∨ a.end_date.truthy = false) :
    is_active a t = false := by
  rcases h with h | h <;> simp [is_active, h]

/-- Witness for C4: an asset with an empty-string start date and an
absent end date is inactive at time 0. -/
theorem is_active_missing_boundary_witness :
    is_active ⟨"id", "n", "u", .emptyStr, .absent, "5", "web"⟩ 0 = false :=
  is_active_missing_boundary ⟨"id", "n", "u", .emptyStr, .absent, "5", "web"⟩ 0
    (Or.inl rfl)

/-!
## Theorems: playlist builder
-/

/-- C5: the playlist is exactly the store list stably filtered by
`is_active` at the query time, each surviving asset with its dates
stringified; consequently every active store asset appears in it, in
store iteration order, and nothing else does. -/
theorem get_playlist_stable_filter (dts : DateField → String) (now : Int)
    (assets : List Asset) :
    get_playlist dts now assets
      = (assets.filter (fun a => is_active a now)).map (stringify_dates dts) := by
  induction assets with
  | nil => rfl
  | cons a rest ih =>
      by_cases h : is_active a now <;>
        simp [get_playlist, List.filter_cons, h, ih]

/-!
## Theorems: URI validation
-/

/-- C6: `validate_uri` returns true exactly when the input parses (via
`urlparse`) with scheme `http` or `https` and a non-empty netloc (host);
in particular the five documented examples evaluate as specified. -/
theorem validate_uri_spec :
    (∀ uri : String, validate_uri uri = .ok true ↔
      ∃ p, urlparse uri = .ok p ∧
        (p.scheme = "http" ∨ p.scheme = "https") ∧ p.netloc ≠ "")
    ∧ validate_uri "http://wireload.net/logo.png" = .ok true
    ∧ validate_uri "https://wireload.net/logo.png" = .ok true
    ∧ validate_uri "ftp://example.com" = .ok false
    ∧ validate_uri "http://" = .ok false
    ∧ validate_uri "hello" = .ok false := by
  refine ⟨?_, by rfl, by rfl, by rfl, by rfl, by rfl⟩
  intro uri
  unfold validate_uri
  cases h : urlparse uri with
  | error e => simp
  | ok p => simp

/-!
## Theorems: ingestion pipeline
-/

/-- Helper: a successful URI branch on a non-empty URI assigns
`asset_id = md5(name + uri)` and the URI itself. -/
theorem uri_branch_ok_id (env : Env) (name uri' : String)
    (prev : Option String × Option String)
    (h : uri_branch env name uri' = .ok prev) (hu : uri' ≠ "") :
    prev = (some (env.md5hex (name ++ uri')), some uri') := by
  unfold uri_branch at h
  rw [if_pos hu] at h
  cases hv : validate_uri uri' with
  | error e => rw [hv] at h; simp at h
  | ok b =>
      rw [hv] at h
      cases b
      · simp at h
      · by_cases hf : env.fetch_status uri' = 200
        · rw [if_pos hf] at h
          simpa using h.symm
        · rw [if_neg hf] at h; simp at h

/-- Helper: anatomy of a successful `prepare_asset` run — the duration
key is exactly `duration_field`, and on the URI path (non-empty
stripped uri) no file upload can coexist, so the asset id is the hash
of stripped name ++ stripped uri. -/
theorem prepare_asset_ok_fields (env : Env) (sub : Submission) (r : PrepareResult)
    (h : prepare_asset env sub = .ok r) :
    r.asset.duration = duration_field (pystrip sub.mimetype) (pystrip sub.duration)
      ∧ (pystrip sub.uri ≠ "" →
          sub.file_upload = none
          ∧ r.asset.asset_id = some (env.md5hex (pystrip sub.name ++ pystrip sub.uri))) := by
  simp only [prepare_asset] at h
  split at h
  · simp at h
  · split at h
    · simp at h
    · split at h
      · simp at h
      · rename_i h3
        split at h
        · simp at h
        · rename_i prev heq
          split at h
          · simp at h
          · rename_i sd heq2
            split at h
            · simp at h
            · rename_i ed heq3
              simp only [Except.ok.injEq] at h
              subst h
              refine ⟨rfl, fun hu => ?_⟩
              have hns : sub.file_upload = none := by
                cases hfu : sub.file_upload with
                | none => rfl
                | some fs => exact absurd ⟨hu, by simp [hfu]⟩ h3
              have hp := uri_branch_ok_id env (pystrip sub.name) (pystrip sub.uri) prev heq hu
              subst hp
              exact ⟨hns, by simp [file_branch, hns]⟩

/-- C2 counterexample: a video submission supplying duration `"10"`
yields a record whose duration is `"10"`, not the `"N/A"` sentinel —
the supplied duration is assigned after (and over) the sentinel. -/
theorem prepare_asset_video_duration_counterexample :
    (prepare_asset env0 ⟨"a", "http://example.com/v.mp4", "video", "10", "", "", none⟩).map
        (fun r => r.asset.duration) = .ok (some "10")
      ∧ (some "10" : Option String) ≠ some "N/A" :=
  ⟨rfl, by decide⟩

/-- C2 (amended): for a video-mimetype submission that succeeds, the
duration is the `"N/A"` sentinel exactly when no non-empty duration was
supplied; a supplied duration is used verbatim and overrides the
sentinel. -/
theorem prepare_asset_video_duration (env : Env) (sub : Submission)
    (r : PrepareResult)
    (hv : py_in "video" (pystrip sub.mimetype) = true)
    (h : prepare_asset env sub = .ok r) :
    r.asset.duration
      = (if pystrip sub.duration = "" then some "N/A" else some (pystrip sub.duration)) := by
  have hd := (prepare_asset_ok_fields env sub r h).1
  rw [hd]
  unfold duration_field
  by_cases hdu : pystrip sub.duration = "" <;> simp [hdu, hv]

/-- Witness for C2 (amended): a video submission with no supplied
duration gets the `"N/A"` sentinel. -/
theorem prepare_asset_video_duration_witness :
    (⟨⟨"movie", "video", some "md5:moviehttp://example.com/v.mp4",
       some "http://example.com/v.mp4", some "N/A", .emptyStr, .emptyStr⟩,
      none⟩ : PrepareResult).asset.duration
      = (if pystrip "" = "" then some "N/A" else some (pystrip "")) :=
  prepare_asset_video_duration env0
    ⟨"movie", "http://example.com/v.mp4", "video", "", "", "", none⟩
    ⟨⟨"movie", "video", some "md5:moviehttp://example.com/v.mp4",
      some "http://example.com/v.mp4", some "N/A", .emptyStr, .emptyStr⟩, none⟩
    (by decide) rfl

/-- C3 at the failing input: uploading the bytes `"hello"` derives the
asset id from the uploaded bytes and sets `uri` to
`asset_folder/asset_id` as claimed, but the bytes actually written to
that path are `""` — the stream was already exhausted by the read that
computed the id, so the second `read()` returns nothing. -/
theorem prepare_asset_upload_write_bug :
    prepare_asset env0 ⟨"a", "", "image", "5", "", "", some (upload "hello")⟩
      = .ok ⟨⟨"a", "image", some (env0.md5hex "hello"),
             some "/screenly_assets/md5:hello", some "5", .emptyStr, .emptyStr⟩,
             some ("/screenly_assets/md5:hello", "")⟩
      ∧ ("" : String) ≠ "hello" :=
  ⟨rfl, by decide⟩

/-- C7: a submission carrying a non-empty name and mimetype, a
non-empty URI and simultaneously a file upload, with a mimetype not
containing "web", is rejected with the both-sources validation error
and produces no asset record. -/
theorem prepare_asset_rejects_uri_and_file (env : Env) (sub : Submission)
    (hname : pystrip sub.name ≠ "") (hmime : pystrip sub.mimetype ≠ "")
    (huri : pystrip sub.uri ≠ "") (hfile : sub.file_upload.isSome = true)
    (hweb : py_in "web" (pystrip sub.mimetype) = false) :
    prepare_asset env sub
      = .error "Invalid combination. Can't select both URI and a file." := by
  have h1 : ¬¬(pystrip sub.name ≠ ""
      ∧ (pystrip sub.uri ≠ "" ∨ sub.file_upload.isSome) ∧ pystrip sub.mimetype ≠ "") :=
    not_not_intro ⟨hname, Or.inl huri, hmime⟩
  have h2 : ¬(sub.file_upload.isSome ∧ py_in "web" (pystrip sub.mimetype) = true) := by
    rintro ⟨-, hw⟩
    rw [hweb] at hw
    exact Bool.false_ne_true hw
  simp only [prepare_asset]
  rw [if_neg h1, if_neg h2, if_pos ⟨huri, hfile⟩]

/-- Witness for C7: a concrete image submission with both a URI and an
uploaded file is rejected. -/
theorem prepare_asset_rejects_uri_and_file_witness :
    prepare_asset env0
        ⟨"a", "http://example.com/a.png", "image", "", "", "", some (upload "x")⟩
      = .error "Invalid combination. Can't select both URI and a file." :=
  prepare_asset_rejects_uri_and_file env0
    ⟨"a", "http://example.com/a.png", "image", "", "", "", some (upload "x")⟩
    (by decide) (by decide) (by decide) rfl (by decide)

/-- C8: for two successful URI-based submissions with identical
stripped name and identical stripped URI, the derived asset id is the
same — it is `md5(name + uri)`, a deterministic function of the
(name, URI) pair. -/
theorem prepare_asset_uri_id_deterministic (env : Env) (s1 s2 : Submission)
    (r1 r2 : PrepareResult) (hu1 : pystrip s1.uri ≠ "")
    (hn : pystrip s1.name = pystrip s2.name) (hu : pystrip s1.uri = pystrip s2.uri)
    (h1 : prepare_asset env s1 = .ok r1) (h2 : prepare_asset env s2 = .ok r2) :
    r1.asset.asset_id = r2.asset.asset_id
      ∧ r1.asset.asset_id = some (env.md5hex (pystrip s1.name ++ pystrip s1.uri)) := by
  have a1 := (prepare_asset_ok_fields env s1 r1 h1).2 hu1
  have a2 := (prepare_asset_ok_fields env s2 r2 h2).2 (hu ▸ hu1)
  rw [a1.2, a2.2, hn, hu]
  exact ⟨rfl, rfl⟩

/-- Witness for C8: two submissions sharing the stripped pair
("a", "http://example.com/v.mp4") but differing in whitespace, mimetype
and duration derive the same asset id. -/
theorem prepare_asset_uri_id_deterministic_witness :
    (⟨⟨"a", "video", some "md5:ahttp://example.com/v.mp4",
       some "http://example.com/v.mp4", some "10", .emptyStr, .emptyStr⟩,
      none⟩ : PrepareResult).asset.asset_id
      = (⟨⟨"a", "image", some "md5:ahttp://example.com/v.mp4",
           some "http://example.com/v.mp4", none, .emptyStr, .emptyStr⟩,
          none⟩ : PrepareResult).asset.asset_id
    ∧ (⟨⟨"a", "video", some "md5:ahttp://example.com/v.mp4",
         some "http://example.com/v.mp4", some "10", .emptyStr, .emptyStr⟩,
        none⟩ : PrepareResult).asset.asset_id
      = some (env0.md5hex (pystrip "a" ++ pystrip "http://example.com/v.mp4")) :=
  prepare_asset_uri_id_deterministic env0
    ⟨"a", "http://example.com/v.mp4", "video", "10", "", "", none⟩
    ⟨" a ", " http://example.com/v.mp4", "image", "", "", "", none⟩
    ⟨⟨"a", "video", some "md5:ahttp://example.com/v.mp4",
      some "http://example.com/v.mp4", some "10", .emptyStr, .emptyStr⟩, none⟩
    ⟨⟨"a", "image", some "md5:ahttp://example.com/v.mp4",
      some "http://example.com/v.mp4", none, .emptyStr, .emptyStr⟩, none⟩
    (by decide) (by decide) (by decide) rfl rfl

/-!
## Theorems: edit endpoint
-/

/-- Helper: a fold of column assignments none of which targets
`asset_id` leaves the row's `asset_id` unchanged. -/
theorem run_update_asset_id (pairs : List (Column × Value)) (row : DbRow)
    (h : ∀ kv ∈ pairs, kv.1 ≠ Column.asset_id) :
    (run_update row pairs).asset_id = row.asset_id := by
  induction pairs generalizing row with
  | nil => rfl
  | cons kv rest ih =>
      have h1 : kv.1 ≠ Column.asset_id := h kv (List.mem_cons_self kv rest)
      have hset : (setCol row kv.1 kv.2).asset_id = row.asset_id := by
        rcases kv with ⟨c, v⟩
        cases c <;> cases v <;> simp_all [setCol]
      have hrest : ∀ k ∈ rest, k.1 ≠ Column.asset_id :=
        fun k hk => h k (List.mem_cons_of_mem kv hk)
      calc (run_update row (kv :: rest)).asset_id
          = (run_update (setCol row kv.1 kv.2) rest).asset_id := rfl
        _ = (setCol row kv.1 kv.2).asset_id := ih (setCol row kv.1 kv.2) hrest
        _ = row.asset_id := hset

/-- C9: whenever the edit endpoint's ingestion succeeds and the UPDATE
runs, the matched row's `asset_id` is unchanged — the prepared record's
`asset_id` key is deleted before the UPDATE, so the identity column is
never among the assignments. -/
theorem edit_asset_preserves_id (env : Env) (sub : Submission)
    (row row' : DbRow) (h : edit_asset env sub row = .ok row') :
    row'.asset_id = row.asset_id := by
  unfold edit_asset at h
  split at h
  · simp at h
  · rename_i r heq
    simp only [] at h
    split at h
    · simp at h
    · simp only [Except.ok.injEq] at h
      subst h
      apply run_update_asset_id
      intro kv hk
      exact of_decide_eq_true (List.mem_filter.mp hk).2

/-- Witness for C9: editing a stored row via a concrete URI submission
rewrites its mutable columns but keeps `asset_id = "orig-id"`. -/
theorem edit_asset_preserves_id_witness :
    ({ asset_id := "orig-id", name := "b", uri := "http://example.com/b.png",
       md5 := "m", start_date := .emptyStr, end_date := .emptyStr,
       duration := "7", mimetype := "image" } : DbRow).asset_id
      = ({ asset_id := "orig-id", name := "old", uri := "old-uri", md5 := "m",
           start_date := .time 3, end_date := .time 9,
           duration := "4", mimetype := "video" } : DbRow).asset_id :=
  edit_asset_preserves_id env0
    ⟨"b", "http://example.com/b.png", "image", "7", "", "", none⟩
    { asset_id := "orig-id", name := "old", uri := "old-uri", md5 := "m",
      start_date := .time 3, end_date := .time 9,
      duration := "4", mimetype := "video" }
    { asset_id := "orig-id", name := "b", uri := "http://example.com/b.png",
      md5 := "m", start_date := .emptyStr, end_date := .emptyStr,
      duration := "7", mimetype := "image" }
    rfl

/-!
## Theorems: legacy creation endpoint
-/

/-- Helper: an asset whose date columns hold Python-falsy values is
never active. -/
theorem is_active_emptyStr_dates (a : Asset) (t : Int)
    (hs : a.start_date = .emptyStr) : is_active a t = false := by
  simp [is_active, hs, DateField.truthy]

/-- C10: every row inserted by the legacy /process_asset endpoint
carries the empty-string sentinels for `start_date`, `end_date` and
`duration` — whatever the submission supplied — and is therefore
inactive at every query time until scheduled separately. -/
theorem process_asset_inserts_unscheduled (env : Env) (sub : Submission)
    (row : Asset) (fw : Option (String × String))
    (h : process_asset env sub = .ok (row, fw)) :
    row.start_date = .emptyStr ∧ row.end_date = .emptyStr ∧ row.duration = ""
      ∧ ∀ t : Int, is_active row t = false := by
  have hrow : row.start_date = .emptyStr ∧ row.end_date = .emptyStr
      ∧ row.duration = "" := by
    simp only [process_asset] at h
    split at h
    · simp at h
    · split at h
      · simp at h
      · split at h
        · simp at h
        · split at h
          · simp at h
          · split at h
            · simp at h
            · split at h
              · simp at h
              · rename_i idOpt heq
                split at h
                · rename_i fs hfs
                  simp only [Except.ok.injEq, Prod.mk.injEq] at h
                  rw [← h.1]
                  exact ⟨rfl, rfl, rfl⟩
                · split at h
                  · rename_i aid hid
                    simp only [Except.ok.injEq, Prod.mk.injEq] at h
                    rw [← h.1]
                    exact ⟨rfl, rfl, rfl⟩
                  · simp at h
  exact ⟨hrow.1, hrow.2.1, hrow.2.2,
    fun t => is_active_emptyStr_dates row t hrow.1⟩

/-- Witness for C10: the row created from a concrete image submission
that supplied duration "9" is stored unscheduled (empty dates, empty
duration) and is inactive at time 0. -/
theorem process_asset_inserts_unscheduled_witness :
    (⟨"md5:ahttp://example.com/a.png", "a", "http://example.com/a.png",
      .emptyStr, .emptyStr, "", "image"⟩ : Asset).start_date = .emptyStr
    ∧ (⟨"md5:ahttp://example.com/a.png", "a", "http://example.com/a.png",
        .emptyStr, .emptyStr, "", "image"⟩ : Asset).end_date = .emptyStr
    ∧ (⟨"md5:ahttp://example.com/a.png", "a", "http://example.com/a.png",
        .emptyStr, .emptyStr, "", "image"⟩ : Asset).duration = ""
    ∧ ∀ t : Int, is_active
        (⟨"md5:ahttp://example.com/a.png", "a", "http://example.com/a.png",
          .emptyStr, .emptyStr, "", "image"⟩ : Asset) t = false :=
  process_asset_inserts_unscheduled env0
    ⟨"a", "http://example.com/a.png", "image", "9", "", "", none⟩
    ⟨"md5:ahttp://example.com/a.png", "a", "http://example.com/a.png",
     .emptyStr, .emptyStr, "", "image"⟩
    none rfl

end Screenly
